import Mathlib

/-!
Verification of the `ProgressHandler.emit` routine (src/ProgressHandler.py),
a `logging.StreamHandler` subclass keeping two booleans of state
(`on_same_line`, `overwriting`) and writing messages, backspace rewind
sequences and line terminators to a stream.

The emission of one record is embedded as a pure function from the handler
state and the record to the ordered list of `stream.write` calls (the write
trace) together with the successor state.  A second, fallible model
(`emitTry`) additionally accounts for exceptions raised by `self.format` or
by any stream operation, mirroring the `try/except` structure of `emit`.
-/

/-- The ASCII backspace control character, `curses.ascii.BS` (0x08). -/
def BS : Char := Char.ofNat 8

/-- The line terminator of `logging.StreamHandler` (`self.terminator`),
which is `"\n"`. -/
def terminator : String := "\n"

/-- The two mutable fields of the handler
(`ProgressHandler.on_same_line`, `ProgressHandler.overwriting`),
both initially `False`. -/
structure EmitterState where
  on_same_line : Bool
  overwriting : Bool
  deriving DecidableEq, Repr

/-- The initial handler state: class attributes `on_same_line = False`,
`overwriting = False`. -/
def initialState : EmitterState := { on_same_line := false, overwriting := false }

/-- One log record as `emit` observes it: the fully formatted string
`self.format(record)`, the raw body `record.getMessage()`, and the two
optional attributes `same_line` and `overwrite` (present with some boolean
value, or absent — the code tests presence with `hasattr`). -/
structure LogRecord where
  formatted : String
  raw : String
  same_line : Option Bool
  overwrite : Option Bool
  deriving DecidableEq, Repr

/-- One `stream.write` call made by `emit`:
a line terminator, a text payload, or a rewind run of `n` backspaces. -/
inductive WriteEvent where
  | term : WriteEvent
  | text : String → WriteEvent
  | rewind : Nat → WriteEvent
  deriving DecidableEq, Repr

/-- The characters a write event puts on the stream. -/
def WriteEvent.render : WriteEvent → String
  | .term => terminator
  | .text s => s
  | .rewind n => String.mk (List.replicate n BS)

/-- Concatenation of the characters of a whole write trace. -/
def renderTrace (t : List WriteEvent) : String :=
  t.foldl (fun a e => a ++ e.render) ""

/-- Whether a write event is a text payload. -/
def WriteEvent.isText : WriteEvent → Bool
  | .text _ => true
  | _ => false

/-- The number of backspaces a write event contributes as a rewind run. -/
def WriteEvent.rewindSize : WriteEvent → Nat
  | .rewind n => n
  | _ => 0

/-- Total size of the rewind runs in a trace. -/
def rewindTotal (t : List WriteEvent) : Nat :=
  (t.map WriteEvent.rewindSize).sum

/-- Occurrences of the backspace character in a string. -/
def countBS (s : String) : Nat := s.data.count BS

/-- The successful body of `ProgressHandler.emit` (lines 30–61 of
src/ProgressHandler.py) as a pure function: given the entry state and the
record, the ordered write trace and the exit state.

* `same_line`/`overwrite` are `hasattr(record, ...)`, i.e. attribute
  presence (`Option.isSome`);
* a leading terminator is written when
  `self.on_same_line and not (same_line or self.overwriting)`;
* the payload is `record.getMessage()` when `self.on_same_line` else the
  formatted string;
* under `overwrite`, `chr(BS) * len(record.getMessage())` is written and
  `overwriting` is set, else `overwriting` is cleared;
* under `same_line or overwrite`, `on_same_line` is set, else a trailing
  terminator is written and `on_same_line` is cleared. -/
def emit (s : EmitterState) (r : LogRecord) : List WriteEvent × EmitterState :=
  let same_line := r.same_line.isSome
  let overwrite := r.overwrite.isSome
  let lead : List WriteEvent :=
    if s.on_same_line && !(same_line || s.overwriting) then [.term] else []
  let msg : String := if s.on_same_line then r.raw else r.formatted
  let rewind : List WriteEvent :=
    if overwrite then [.rewind r.raw.length] else []
  let tail : List WriteEvent :=
    if same_line || overwrite then [] else [.term]
  (lead ++ [.text msg] ++ rewind ++ tail,
   { on_same_line := same_line || overwrite, overwriting := overwrite })

/-- Folding `emit` over a list of records (the state after a sequence of
emissions). -/
def emitSeq (s : EmitterState) : List LogRecord → EmitterState
  | [] => s
  | r :: rs => emitSeq (emit s r).2 rs

/-- Events before the first text payload of a trace. -/
def beforeFirstText (t : List WriteEvent) : List WriteEvent :=
  t.takeWhile (fun e => !e.isText)

/-- Events after the first text payload of a trace. -/
def afterFirstText (t : List WriteEvent) : List WriteEvent :=
  (t.dropWhile (fun e => !e.isText)).tail

/-- The exceptions relevant to `emit`: the two process-interruption signals
named on line 63 of the source, and two stand-ins for everything a bare
`except:` catches (a broken stream, a formatting error). -/
inductive PyExc where
  | keyboardInterrupt : PyExc
  | systemExit : PyExc
  | brokenStream : PyExc
  | formatError : PyExc
  deriving DecidableEq, Repr

/-- Membership in the tuple `(KeyboardInterrupt, SystemExit)` of the first
`except` clause. -/
def PyExc.isInterrupt : PyExc → Bool
  | .keyboardInterrupt => true
  | .systemExit => true
  | _ => false

/-- One primitive step of the `try` body: a stream write, one of the two
field assignments, or the final `self.flush()`. -/
inductive EmitStep where
  | write : WriteEvent → EmitStep
  | setOverwriting : Bool → EmitStep
  | setOnSameLine : Bool → EmitStep
  | flush : EmitStep
  deriving DecidableEq, Repr

/-- The straight-line `try` body of `emit` (after a successful
`self.format`) compiled to its sequence of primitive steps, in source
order: conditional leading terminator (line 37), payload write (line 46),
rewind write then `overwriting := True` or `overwriting := False`
(lines 49–53), `on_same_line := True` or trailing terminator then
`on_same_line := False` (lines 56–61), flush (line 62). -/
def tryActions (s : EmitterState) (r : LogRecord) : List EmitStep :=
  let same_line := r.same_line.isSome
  let overwrite := r.overwrite.isSome
  (if s.on_same_line && !(same_line || s.overwriting) then [.write .term] else []) ++
  [.write (.text (if s.on_same_line then r.raw else r.formatted))] ++
  (if overwrite then [.write (.rewind r.raw.length), .setOverwriting true]
   else [.setOverwriting false]) ++
  (if same_line || overwrite then [.setOnSameLine true]
   else [.write .term, .setOnSameLine false]) ++
  [.flush]

/-- A stream fault: the `failAt`-th stream operation performed by this call
(writes and the flush, counted in execution order from 0) raises `exc`. -/
structure StreamFault where
  failAt : Nat
  exc : PyExc
  deriving DecidableEq, Repr

/-- Whether the stream operation with execution index `idx` raises. -/
def opFails (fault : Option StreamFault) (idx : Nat) : Option PyExc :=
  match fault with
  | some f => if f.failAt = idx then some f.exc else none
  | none => none

/-- Run the primitive steps: writes append to the trace and consume a
stream-operation index, assignments mutate the state, the flush consumes
an index.  A failing stream operation aborts with the exception, the trace
written so far and the state as mutated so far. -/
def runActions (fault : Option StreamFault) :
    List EmitStep → Nat → List WriteEvent → EmitterState →
    Except (PyExc × List WriteEvent × EmitterState) (List WriteEvent × EmitterState)
  | [], _, t, st => Except.ok (t, st)
  | EmitStep.write e :: rest, idx, t, st =>
    match opFails fault idx with
    | some exc => Except.error (exc, t, st)
    | none => runActions fault rest (idx + 1) (t ++ [e]) st
  | EmitStep.flush :: rest, idx, t, st =>
    match opFails fault idx with
    | some exc => Except.error (exc, t, st)
    | none => runActions fault rest (idx + 1) t st
  | EmitStep.setOverwriting b :: rest, idx, t, st =>
    runActions fault rest idx t { st with overwriting := b }
  | EmitStep.setOnSameLine b :: rest, idx, t, st =>
    runActions fault rest idx t { st with on_same_line := b }

/-- Outcome of a whole `emit` call: normal return, a propagated exception,
or the `self.handleError(record)` path; each carries the trace written to
the stream and the handler state at that point. -/
inductive EmitOutcome where
  | normal : List WriteEvent → EmitterState → EmitOutcome
  | raised : PyExc → List WriteEvent → EmitterState → EmitOutcome
  | handled : List WriteEvent → EmitterState → EmitOutcome
  deriving DecidableEq, Repr

/-- `emit` with its `try/except` structure: `self.format(record)` may
raise (`fmtFail`), a stream operation may raise (`fault`); exceptions in
the tuple `(KeyboardInterrupt, SystemExit)` are re-raised, every other
exception goes to `self.handleError(record)`. -/
def emitTry (s : EmitterState) (r : LogRecord) (fmtFail : Option PyExc)
    (fault : Option StreamFault) : EmitOutcome :=
  let res : Except (PyExc × List WriteEvent × EmitterState)
      (List WriteEvent × EmitterState) :=
    match fmtFail with
    | some e => Except.error (e, [], s)
    | none => runActions fault (tryActions s r) 0 [] s
  match res with
  | Except.ok (t, st) => EmitOutcome.normal t st
  | Except.error (e, t, st) =>
    if e.isInterrupt then EmitOutcome.raised e t st else EmitOutcome.handled t st

/-- Scenario C, first call: `extra={'overwrite': True}`, formatted and raw
both `"Loading"`. -/
def loadingRec : LogRecord :=
  { formatted := "Loading", raw := "Loading", same_line := none, overwrite := some true }

/-- Scenario C, second call: a plain record, formatted `"X: Done"`,
raw `"Done"`. -/
def doneRec : LogRecord :=
  { formatted := "X: Done", raw := "Done", same_line := none, overwrite := none }

/-- Scenario B, first call: `extra={'same_line': True}`. -/
def sameLineRecA : LogRecord :=
  { formatted := "X: a", raw := "a", same_line := some true, overwrite := none }

/-- Scenario B, second call: `extra={'same_line': True}`. -/
def sameLineRecB : LogRecord :=
  { formatted := "X: b", raw := "b", same_line := some true, overwrite := none }

example :
    (emit initialState
      { formatted := "Hello", raw := "Hello", same_line := none, overwrite := none }).1
      = [.text "Hello", .term] := by decide

example :
    renderTrace [.text "Loading", .rewind 2] = "Loading" ++ String.mk [BS, BS] := by
  decide

example :
    emitTry initialState doneRec none none
      = EmitOutcome.normal [.text "X: Done", .term]
          { on_same_line := false, overwriting := false } := by decide

example :
    emitTry initialState doneRec none (some { failAt := 1, exc := PyExc.brokenStream })
      = EmitOutcome.handled [.text "X: Done"]
          { on_same_line := false, overwriting := false } := by decide

/-- C1: a leading terminator is written, before any payload, exactly when
the entry state has `on_same_line` and neither this call's `same_line`
attribute nor the entry state's `overwriting` flag is set; in particular
the call right after an overwrite call writes no leading terminator even
when it requests neither flag (its first write is its payload). -/
theorem emit_leading_terminator (s : EmitterState) (r : LogRecord) :
    ((emit s r).1.head? = some WriteEvent.term ↔
      (s.on_same_line = true ∧ r.same_line = none ∧ s.overwriting = false)) ∧
    (∀ r2 : LogRecord, r.overwrite.isSome = true → r2.same_line = none →
      r2.overwrite = none →
      (emit (emit s r).2 r2).1.head? = some (WriteEvent.text r2.raw)) := by
  obtain ⟨osl, ovw⟩ := s
  obtain ⟨fm, raw, sl, ov⟩ := r
  constructor
  · cases osl <;> cases ovw <;> cases sl <;> cases ov <;> simp [emit]
  · intro r2 h1 h2 h3
    obtain ⟨fm2, raw2, sl2, ov2⟩ := r2
    simp only at h2 h3
    subst h2; subst h3
    cases osl <;> cases ovw <;> cases sl <;> cases ov <;> simp_all [emit]

/-- C3: after `emit`, `on_same_line` equals `same_line or overwrite`
(attribute presence), and the call ends with a trailing terminator exactly
when both attributes are absent. -/
theorem emit_exit_state (s : EmitterState) (r : LogRecord) :
    (emit s r).2.on_same_line = (r.same_line.isSome || r.overwrite.isSome) ∧
    ((emit s r).1.getLast? = some WriteEvent.term ↔
      (r.same_line = none ∧ r.overwrite = none)) := by
  obtain ⟨osl, ovw⟩ := s
  obtain ⟨fm, raw, sl, ov⟩ := r
  cases osl <;> cases ovw <;> cases sl <;> cases ov <;> simp [emit]

/-- C4 (Scenario C): from the initial state,
`emit(formatted="Loading", raw="Loading", overwrite=True)` then
`emit(formatted="X: Done", raw="Done")` put exactly
`"Loading" + BS*7 + "Done" + terminator` on the stream, and the second
call writes nothing before its payload (no terminator before `"Done"`). -/
theorem scenario_c_output :
    renderTrace ((emit initialState loadingRec).1
        ++ (emit (emit initialState loadingRec).2 doneRec).1)
      = "Loading" ++ String.mk (List.replicate 7 BS) ++ "Done" ++ terminator ∧
    beforeFirstText (emit (emit initialState loadingRec).2 doneRec).1 = [] := by
  constructor <;> decide

/-- C5: the unique text payload a call writes is the raw body when the
entry state has `on_same_line`, and the formatted string otherwise; hence
the second of two consecutive same-line emissions writes only its raw
body. -/
theorem emit_payload_selection (s : EmitterState) (r : LogRecord) :
    (emit s r).1.filter WriteEvent.isText
      = [WriteEvent.text (if s.on_same_line then r.raw else r.formatted)] ∧
    (∀ r2 : LogRecord, r.same_line.isSome = true → r2.same_line.isSome = true →
      (emit (emit s r).2 r2).1.filter WriteEvent.isText
        = [WriteEvent.text r2.raw]) := by
  obtain ⟨osl, ovw⟩ := s
  obtain ⟨fm, raw, sl, ov⟩ := r
  constructor
  · cases osl <;> cases ovw <;> cases sl <;> cases ov <;>
      simp [emit, WriteEvent.isText]
  · intro r2 h1 h2
    obtain ⟨fm2, raw2, sl2, ov2⟩ := r2
    cases sl <;> cases sl2 <;> cases ov <;> cases ov2 <;>
      simp_all [emit, WriteEvent.isText]

/-- C9: the `same_line` and `overwrite` flags are detected by attribute
presence (`hasattr`), not by value: `emit` is unchanged when an attribute's
value is replaced by any other value, and an attribute present with value
`False` still activates the flag (here: a `same_line` attribute of any
value forces `on_same_line` after the call). -/
theorem flags_by_attribute_presence :
    (∀ (s : EmitterState) (fm raw : String) (a b : Bool) (ov : Option Bool),
      emit s { formatted := fm, raw := raw, same_line := some a, overwrite := ov }
        = emit s { formatted := fm, raw := raw, same_line := some b, overwrite := ov }) ∧
    (∀ (s : EmitterState) (fm raw : String) (sl : Option Bool) (a b : Bool),
      emit s { formatted := fm, raw := raw, same_line := sl, overwrite := some a }
        = emit s { formatted := fm, raw := raw, same_line := sl, overwrite := some b }) ∧
    (∀ (s : EmitterState) (fm raw : String) (ov : Option Bool) (a : Bool),
      (emit s
        { formatted := fm, raw := raw, same_line := some a, overwrite := ov }
       ).2.on_same_line = true) := by
  refine ⟨?_, ?_, ?_⟩ <;> intros <;> simp [emit]

theorem countBS_append (a b : String) :
    countBS (a ++ b) = countBS a + countBS b := by
  simp [countBS]

theorem countBS_terminator : countBS terminator = 0 := by decide

theorem count_BS_terminator_data : List.count BS terminator.data = 0 := by decide

theorem countBS_bsRun (n : Nat) : countBS (String.mk (List.replicate n BS)) = n := by
  simp [countBS]

/-- C2: an overwrite call writes exactly `len(record.getMessage())`
backspaces: its rewind runs total the raw body's length whatever the entry
state and the formatted string, and when neither message string itself
contains a backspace, the backspace characters of the whole output of the
call number exactly the raw body's length. -/
theorem emit_backspace_count (s : EmitterState) (r : LogRecord)
    (h : r.overwrite.isSome = true) :
    rewindTotal (emit s r).1 = r.raw.length ∧
    (countBS r.formatted = 0 → countBS r.raw = 0 →
      countBS (renderTrace (emit s r).1) = r.raw.length) := by
  obtain ⟨osl, ovw⟩ := s
  obtain ⟨fm, raw, sl, ov⟩ := r
  cases ov with
  | none => simp at h
  | some a =>
    refine ⟨?_, ?_⟩
    · cases osl <;> cases ovw <;> cases sl <;>
        simp [emit, rewindTotal, WriteEvent.rewindSize]
    · intro hf hr
      cases osl <;> cases ovw <;> cases sl <;>
        simp_all [emit, renderTrace, WriteEvent.render, countBS_append,
          countBS_terminator, countBS_bsRun, countBS, count_BS_terminator_data]

/-- The state after `xs ++ [r]` is one `emit` step from the state after
`xs`. -/
theorem emitSeq_concat (s : EmitterState) (xs : List LogRecord) (r : LogRecord) :
    emitSeq s (xs ++ [r]) = (emit (emitSeq s xs) r).2 := by
  induction xs generalizing s with
  | nil => rfl
  | cons x xs ih => simpa [emitSeq] using ih (emit s x).2

/-- C7: from the initial state, `overwriting` can only hold together with
`on_same_line` (so the combination `on_same_line = false, overwriting =
true` is unreachable); a call without the `overwrite` attribute leaves
`overwriting` false; when `overwriting` holds after a sequence, the last
call had the attribute and `on_same_line` holds too; and the other three
boolean combinations are all reached. -/
theorem overwriting_invariant :
    (∀ rs : List LogRecord, (emitSeq initialState rs).overwriting = true →
      (emitSeq initialState rs).on_same_line = true) ∧
    (∀ (s : EmitterState) (r : LogRecord), r.overwrite = none →
      (emit s r).2.overwriting = false) ∧
    (∀ (rs : List LogRecord) (r : LogRecord),
      (emitSeq initialState (rs ++ [r])).overwriting = true →
      r.overwrite.isSome = true ∧
        (emitSeq initialState (rs ++ [r])).on_same_line = true) ∧
    (emitSeq initialState [] = { on_same_line := false, overwriting := false } ∧
      emitSeq initialState [sameLineRecA]
        = { on_same_line := true, overwriting := false } ∧
      emitSeq initialState [loadingRec]
        = { on_same_line := true, overwriting := true }) := by
  refine ⟨?_, ?_, ?_, by decide⟩
  · intro rs h
    rcases List.eq_nil_or_concat rs with rfl | ⟨xs, r, rfl⟩
    · simp [emitSeq, initialState] at h
    · rw [List.concat_eq_append, emitSeq_concat] at h ⊢
      simp only [emit] at h ⊢
      simp_all
  · intro s r h
    simp [emit, h]
  · intro rs r h
    rw [emitSeq_concat] at h ⊢
    simp only [emit] at h ⊢
    simp_all

/-- C8: across two consecutive emissions that both carry the `same_line`
attribute, no terminator appears between the first call's payload and the
second call's payload. -/
theorem same_line_no_terminator_between (s : EmitterState) (r1 r2 : LogRecord)
    (h1 : r1.same_line.isSome = true) (h2 : r2.same_line.isSome = true) :
    WriteEvent.term ∉
      afterFirstText (emit s r1).1
        ++ beforeFirstText (emit (emit s r1).2 r2).1 := by
  obtain ⟨osl, ovw⟩ := s
  obtain ⟨fm1, raw1, sl1, ov1⟩ := r1
  obtain ⟨fm2, raw2, sl2, ov2⟩ := r2
  cases sl1 with
  | none => simp at h1
  | some a =>
    cases sl2 with
    | none => simp at h2
    | some b =>
      cases osl <;> cases ovw <;> cases ov1 <;> cases ov2 <;>
        simp [emit, afterFirstText, beforeFirstText, WriteEvent.isText]

/-- C6: an exception escapes `emit` only if it is a process-interruption
signal (`KeyboardInterrupt`/`SystemExit`); an interrupting exception, from
`self.format` or from the very first stream operation, is re-raised; every
other exception is absorbed (routed to `self.handleError`), so the caller
never crashes on a broken stream. -/
theorem emit_exception_dispatch :
    (∀ (s : EmitterState) (r : LogRecord) (fmtFail : Option PyExc)
        (fault : Option StreamFault) (e : PyExc) (t : List WriteEvent)
        (st : EmitterState),
      emitTry s r fmtFail fault = EmitOutcome.raised e t st →
        e.isInterrupt = true) ∧
    (∀ (s : EmitterState) (r : LogRecord) (fault : Option StreamFault)
        (e : PyExc), e.isInterrupt = true →
      emitTry s r (some e) fault = EmitOutcome.raised e [] s) ∧
    (∀ (s : EmitterState) (r : LogRecord) (e : PyExc), e.isInterrupt = true →
      emitTry s r none (some { failAt := 0, exc := e })
        = EmitOutcome.raised e [] s) := by
  refine ⟨?_, ?_, ?_⟩
  · intro s r fmtFail fault e t st h
    cases fmtFail with
    | some e0 =>
      simp only [emitTry] at h
      by_cases hi : e0.isInterrupt <;> simp [hi] at h
      rcases h with ⟨rfl, -, -⟩
      exact hi
    | none =>
      simp only [emitTry] at h
      cases hX : runActions fault (tryActions s r) 0 [] s with
      | ok v =>
        obtain ⟨t0, st0⟩ := v
        rw [hX] at h
        simp at h
      | error v =>
        obtain ⟨e0, t0, st0⟩ := v
        rw [hX] at h
        by_cases hi : e0.isInterrupt <;> simp [hi] at h
        rcases h with ⟨rfl, -, -⟩
        exact hi
  · intro s r fault e hi
    simp [emitTry, hi]
  · intro s r e hi
    obtain ⟨osl, ovw⟩ := s
    obtain ⟨fm, raw, sl, ov⟩ := r
    cases osl <;> cases ovw <;> cases sl <;> cases ov <;>
      simp [emitTry, tryActions, runActions, opFails, hi]

/-- C10: when `self.format(record)` raises a non-interrupting exception,
`emit` takes the `handleError` path with an empty write trace and the
entry state unchanged: nothing is written and neither state field is
mutated. -/
theorem format_failure_atomic (s : EmitterState) (r : LogRecord) (e : PyExc)
    (fault : Option StreamFault) (h : e.isInterrupt = false) :
    emitTry s r (some e) fault = EmitOutcome.handled [] s := by
  simp [emitTry, h]

/-- Witness for C1 at Scenario C: the call after the overwrite call starts
with its payload `"Done"`, not a terminator. -/
theorem emit_leading_terminator_witness :
    (emit (emit initialState loadingRec).2 doneRec).1.head?
      = some (WriteEvent.text "Done") :=
  (emit_leading_terminator initialState loadingRec).2 doneRec rfl rfl rfl

/-- Witness for C2 at Scenario C's first call: 7 backspaces for
`"Loading"`. -/
theorem emit_backspace_count_witness :
    rewindTotal (emit initialState loadingRec).1 = 7 ∧
    countBS (renderTrace (emit initialState loadingRec).1) = 7 := by
  have h := emit_backspace_count initialState loadingRec rfl
  exact ⟨h.1, h.2 (by decide) (by decide)⟩

/-- Witness for C5 at Scenario B: the second same-line call's only payload
is its raw body `"b"`. -/
theorem emit_payload_selection_witness :
    (emit (emit initialState sameLineRecA).2 sameLineRecB).1.filter
        WriteEvent.isText
      = [WriteEvent.text "b"] :=
  (emit_payload_selection initialState sameLineRecA).2 sameLineRecB rfl rfl

/-- Witness for C6: a `KeyboardInterrupt` from `self.format` is
re-raised. -/
theorem emit_exception_dispatch_witness :
    emitTry initialState doneRec (some PyExc.keyboardInterrupt) none
      = EmitOutcome.raised PyExc.keyboardInterrupt [] initialState :=
  emit_exception_dispatch.2.1 initialState doneRec none PyExc.keyboardInterrupt rfl

/-- Witness for C7: a call without the `overwrite` attribute leaves
`overwriting` false. -/
theorem overwriting_invariant_witness :
    (emit initialState doneRec).2.overwriting = false :=
  overwriting_invariant.2.1 initialState doneRec rfl

/-- Witness for C8 at Scenario B: no terminator between the payloads of
the two same-line calls. -/
theorem same_line_no_terminator_between_witness :
    WriteEvent.term ∉
      afterFirstText (emit initialState sameLineRecA).1
        ++ beforeFirstText (emit (emit initialState sameLineRecA).2 sameLineRecB).1 :=
  same_line_no_terminator_between initialState sameLineRecA sameLineRecB rfl rfl

/-- Witness for C10: a non-interrupting formatting failure is handled with
nothing written and the state untouched. -/
theorem format_failure_atomic_witness :
    emitTry initialState doneRec (some PyExc.formatError) none
      = EmitOutcome.handled [] initialState :=
  format_failure_atomic initialState doneRec PyExc.formatError none rfl
